import Mathlib

/-!
Shallow embedding of the core of `admin_users9.py` (admin users panel):

* `parse_location_data` (source lines 28-64): the pipe-delimited location
  mini-format decoder, including a model of Python's builtin `float()`
  string parser (the only operation in the function that can raise).
* The filter/pagination engine of `get_users` (source lines 355-443):
  predicate composition (`search` via `ILIKE`, `location_filter` via a
  `LIKE '% | % | % | %'` shape test, `status_filter`, `date_filter`),
  pagination arithmetic (`offset`, `total_pages`) and the
  `ORDER BY created_at DESC` page query.
* The update-field list construction of `update_user` (source lines 473-557).

Modelling conventions: SQL text columns are Lean `String`s, timestamps are
seconds since an epoch as `Nat` (`DATE(ts)` is `ts / 86400`, `CURRENT_DATE`
is an explicit `today` parameter), and a SQL query's result order is a
*relation* (any permutation of the filtered rows consistent with the
`ORDER BY` clause), because `ORDER BY created_at DESC` does not determine
the relative order of rows with equal `created_at`.
-/

namespace AdminUsers

/-! ### A model of Python's builtin `float(str)` parser

`parse_location_data` calls `float(parts[i])` inside `try/except ValueError`.
We model the accepted strings of CPython's float parser over ASCII input:
optional surrounding whitespace, an optional sign, then `inf`/`infinity`/
`nan` (case-insensitive) or a decimal literal with optional fraction and
exponent, with single underscores allowed between digits.  The numeric value
is kept exactly (as a rational); IEEE-754 rounding is not modelled, which
does not affect *whether* parsing succeeds. -/

/-- Result of a successful Python `float()` parse. -/
inductive PyFloat where
  | finite (q : Rat)
  | infinite (neg : Bool)
  | nan
deriving DecidableEq

/-- ASCII whitespace stripped by Python's float parser. -/
def isPyWs (c : Char) : Bool :=
  c = ' ' || c = '\t' || c = '\n' || c = '\r' || c = '\x0b' || c = '\x0c'

/-- Strip leading and trailing whitespace. -/
def stripWs (l : List Char) : List Char :=
  ((l.dropWhile isPyWs).reverse.dropWhile isPyWs).reverse

/-- Consume a run of digits in which single underscores may appear between
digits.  Returns the accumulated value, the number of digits consumed, and
the remaining input.  Must be entered on a digit (see `parseUDigits`). -/
def digitsGo : Nat → Nat → List Char → Nat × Nat × List Char
  | v, n, '_' :: c :: rest =>
    if c.isDigit then digitsGo (v * 10 + (c.toNat - 48)) (n + 1) rest
    else (v, n, '_' :: c :: rest)
  | v, n, c :: rest =>
    if c.isDigit then digitsGo (v * 10 + (c.toNat - 48)) (n + 1) rest
    else (v, n, c :: rest)
  | v, n, [] => (v, n, [])

/-- Parse one or more underscore-separated digits; `none` if the input does
not start with a digit. -/
def parseUDigits (l : List Char) : Option (Nat × Nat × List Char) :=
  match l with
  | c :: _ => if c.isDigit then some (digitsGo 0 0 l) else none
  | [] => none

/-- Parse an optional leading sign; returns `(negative, rest)`. -/
def parseSign : List Char → Bool × List Char
  | '+' :: rest => (false, rest)
  | '-' :: rest => (true, rest)
  | l => (false, l)

/-- Exact rational value of a parsed decimal literal
`intPart . fracPart e exp` (sign applied at the end). -/
def mkVal (neg : Bool) (iv fv fnd : Nat) (ex : Int) : Rat :=
  let m : Rat := (iv * 10 ^ fnd + fv : Nat)
  let base : Rat := m / ((10 ^ fnd : Nat) : Rat)
  let p : Rat := if 0 ≤ ex then (10 : Rat) ^ ex.toNat else 1 / (10 : Rat) ^ (-ex).toNat
  let v := base * p
  if neg then -v else v

/-- The strings accepted by Python's `float()` (ASCII), with their value.
`none` models `float()` raising `ValueError`. -/
def parsePyFloat (s : List Char) : Option PyFloat :=
  let l := stripWs s
  let sgn := parseSign l
  let neg := sgn.1
  let l1 := sgn.2
  let low := l1.map Char.toLower
  if low = ['i', 'n', 'f'] || low = ['i', 'n', 'f', 'i', 'n', 'i', 't', 'y'] then
    some (.infinite neg)
  else if low = ['n', 'a', 'n'] then
    some .nan
  else
    let ip := match parseUDigits l1 with
      | some t => t
      | none => (0, 0, l1)
    let iv := ip.1
    let ind := ip.2.1
    let r1 := ip.2.2
    let fp := match r1 with
      | '.' :: r =>
        (match parseUDigits r with
         | some t => t
         | none => (0, 0, r))
      | _ => (0, 0, r1)
    let fv := fp.1
    let fnd := fp.2.1
    let r2 := fp.2.2
    if ind + fnd = 0 then none
    else
      match r2 with
      | [] => some (.finite (mkVal neg iv fv fnd 0))
      | 'e' :: r3 =>
        let esgn := parseSign r3
        (match parseUDigits esgn.2 with
         | some (ev, _, []) =>
            some (.finite (mkVal neg iv fv fnd (if esgn.1 then -(ev : Int) else (ev : Int))))
         | _ => none)
      | 'E' :: r3 =>
        let esgn := parseSign r3
        (match parseUDigits esgn.2 with
         | some (ev, _, []) =>
            some (.finite (mkVal neg iv fv fnd (if esgn.1 then -(ev : Int) else (ev : Int))))
         | _ => none)
      | _ => none

/-! ### The `" | "` split (Python `str.split(' | ')`) -/

/-- Python's `location_string.split(' | ')`: greedy leftmost scan for the
three-character separator `' | '`. -/
def splitLoc : List Char → List (List Char)
  | ' ' :: '|' :: ' ' :: rest => [] :: splitLoc rest
  | c :: rest =>
    match splitLoc rest with
    | [] => [[c]]
    | p :: ps => (c :: p) :: ps
  | [] => [[]]

/-- Python's `' | ' in location_string` membership test. -/
def hasSep : List Char → Bool
  | ' ' :: '|' :: ' ' :: _ => true
  | _ :: rest => hasSep rest
  | [] => false

/-! ### `parse_location_data` (source lines 28-64) -/

/-- The dictionary returned by `parse_location_data`.  `full_string := none`
models the `full_string` key being absent from the returned dict (the
empty-input branch omits it). -/
structure LocationRecord where
  address : String
  latitude : Option PyFloat
  longitude : Option PyFloat
  map_link : Option String
  is_auto_detected : Bool
  full_string : Option String
deriving DecidableEq

/-- The record returned for empty/absent input (source lines 33-40).  Note
it has no `full_string` key. -/
def emptyLocationRecord : LocationRecord :=
  { address := "", latitude := none, longitude := none, map_link := none,
    is_auto_detected := false, full_string := none }

/-- The plain-address fallback record (source lines 57-64). -/
def manualRecord (s : String) : LocationRecord :=
  { address := s, latitude := none, longitude := none, map_link := none,
    is_auto_detected := false, full_string := some s }

/-- `float(parts[i]) if parts[i] else None` under `try/except ValueError`:
the outer `none` models the `ValueError` path, the inner value is the
stored coordinate. -/
def coordVal (seg : List Char) : Option (Option PyFloat) :=
  if seg = [] then some none
  else
    match parsePyFloat seg with
    | some v => some (some v)
    | none => none

/-- `parts[i]` (safe indexing; callers have established `4 ≤ parts.length`). -/
def partsGet (parts : List (List Char)) (i : Nat) : List Char :=
  parts.getD i []

/-- `parse_location_data(location_string)` (source lines 28-64).  The
argument is `Option String` because the location column may be SQL `NULL`
(Python `None`); `if not location_string` treats `None` and `""` alike. -/
def parse_location_data : Option String → LocationRecord
  | none => emptyLocationRecord
  | some s =>
    if s = "" then emptyLocationRecord
    else if hasSep s.data then
      let parts := splitLoc s.data
      if 4 ≤ parts.length then
        match coordVal (partsGet parts 1), coordVal (partsGet parts 2) with
        | some la, some lo =>
          { address := String.mk (partsGet parts 0), latitude := la, longitude := lo,
            map_link := some (String.mk (partsGet parts 3)), is_auto_detected := true,
            full_string := some s }
        | some _, none => manualRecord s
        | none, _ => manualRecord s
      else manualRecord s
    else manualRecord s

/-! ### PostgreSQL `LIKE` / `ILIKE` pattern matching

Used by the `search` condition (`ILIKE %s` with pattern `f"%{search}%"`,
source lines 375-383) and the location-shape filter
(`location LIKE '% | % | % | %'`, lines 385-388).  `%` matches any sequence,
`_` any single character, and backslash (PostgreSQL's default escape
character) makes the next pattern character literal.  `ILIKE` is modelled by
lowercasing both sides (ASCII, via `Char.toLower`). -/

/-- A lexed `LIKE`-pattern element: `%`, `_`, or a literal character. -/
inductive LikeTok where
  | anySeq
  | anyOne
  | lit (c : Char)
deriving DecidableEq

/-- Lex a `LIKE` pattern: backslash (PostgreSQL's default escape character)
makes the next character literal; a trailing lone backslash is an error in
PostgreSQL, modelled as `none`. -/
def likeLex : List Char → Option (List LikeTok)
  | [] => some []
  | '\\' :: c :: rest => (likeLex rest).map (fun ts => .lit c :: ts)
  | c :: rest =>
    if c = '%' then (likeLex rest).map (fun ts => .anySeq :: ts)
    else if c = '_' then (likeLex rest).map (fun ts => .anyOne :: ts)
    else if c = '\\' then none
    else (likeLex rest).map (fun ts => .lit c :: ts)

/-- Match a lexed `LIKE` pattern against a whole string: `%` matches any
(possibly empty) sequence, `_` any single character. -/
def likeRun : List LikeTok → List Char → Bool
  | [], s => s.isEmpty
  | .anySeq :: ps, s => s.tails.any (fun t => likeRun ps t)
  | .anyOne :: ps, s =>
    match s with
    | _ :: s' => likeRun ps s'
    | [] => false
  | .lit c :: ps, s =>
    match s with
    | sc :: s' => c == sc && likeRun ps s'
    | [] => false

/-- `likeMatch pat s`: does the SQL `LIKE` pattern `pat` match the whole
string `s`? -/
def likeMatch (pat s : List Char) : Bool :=
  match likeLex pat with
  | some toks => likeRun toks s
  | none => false

/-- ASCII lowercasing of a character list (model of the case folding done
by `ILIKE`). -/
def lowerL (l : List Char) : List Char := l.map Char.toLower

/-- Case-insensitive `ILIKE`. -/
def ilike (pat s : String) : Bool :=
  likeMatch (lowerL pat.data) (lowerL s.data)

/-- `c` is an ordinary (literal) `LIKE`-pattern character: not `%`, `_` or
the escape character `\`. -/
def isLit (c : Char) : Bool :=
  !(c == '%' || c == '_' || c == '\\')

/-- Direct substring containment (spec wording for claim C4: "contains the
search text as a substring, not anchored"): some suffix of `hay` starts
with `needle`. -/
def containsLC (needle hay : List Char) : Bool :=
  hay.tails.any (fun t => needle.isPrefixOf t)

/-! ### Rows, filter criteria, and the WHERE clause of `get_users` -/

/-- A row of the `users` table (the columns selected by `get_users`).
`created_at` is a timestamp in seconds; `updated_at` is nullable. -/
structure UserRow where
  id : Nat
  full_name : String
  phone : String
  email : String
  location : String
  status : String
  created_at : Nat
  profile_pic : Option String
  updated_at : Option Nat
deriving DecidableEq

/-- The request parameters of `get_users` (source lines 360-365). -/
structure Criteria where
  page : Nat
  per_page : Nat
  search : String
  location_filter : String
  status_filter : String
  date_filter : String
deriving DecidableEq

/-- The search pattern `f"%{search}%"` (source line 382). -/
def searchPattern (search : String) : String := "%" ++ search ++ "%"

/-- The `search` condition (source lines 375-383): any of the four columns
`ILIKE '%search%'`. -/
def searchCond (search : String) (r : UserRow) : Bool :=
  ilike (searchPattern search) r.full_name ||
  ilike (searchPattern search) r.phone ||
  ilike (searchPattern search) r.email ||
  ilike (searchPattern search) r.location

/-- The SQL shape test `location LIKE '% | % | % | %'` (source line 386). -/
def autoShape (location : String) : Bool :=
  likeMatch "% | % | % | %".data location.data

/-- The `location_filter` condition (source lines 385-388): `auto` adds the
shape test, `manual` its negation, anything else adds no condition. -/
def locCond (lf : String) (r : UserRow) : Bool :=
  if lf = "auto" then autoShape r.location
  else if lf = "manual" then !autoShape r.location
  else true

/-- The `date_filter` condition (source lines 394-401).  `today` is the
server's `CURRENT_DATE` as a day number; `DATE(created_at)` is
`created_at / 86400`; an interval of `n days` before midnight of `today`
is the timestamp `(today - n) * 86400`. -/
def dateCond (df : String) (today : Nat) (r : UserRow) : Bool :=
  if df = "today" then r.created_at / 86400 = today
  else if df = "week" then (today - 7) * 86400 ≤ r.created_at
  else if df = "month" then (today - 30) * 86400 ≤ r.created_at
  else true

/-- The composed WHERE clause of both the count query and the page query
(source lines 372-403): the conjunction of the active conditions (an
inactive filter contributes no conjunct, i.e. `true`). -/
def rowMatches (c : Criteria) (today : Nat) (r : UserRow) : Bool :=
  (c.search == "" || searchCond c.search r) &&
  locCond c.location_filter r &&
  (c.status_filter == "all" || r.status == c.status_filter) &&
  dateCond c.date_filter today r

/-! ### Count query, page query and pagination (source lines 367, 405-441) -/

/-- The rows satisfying the WHERE clause, in storage order. -/
def filteredRows (db : List UserRow) (c : Criteria) (today : Nat) : List UserRow :=
  db.filter (rowMatches c today)

/-- `SELECT COUNT(*) ... WHERE ...` (source lines 406-408). -/
def totalCount (db : List UserRow) (c : Criteria) (today : Nat) : Nat :=
  (filteredRows db c today).length

/-- `total_pages = (total + per_page - 1) // per_page` (source line 439). -/
def totalPages (total per_page : Nat) : Nat :=
  (total + per_page - 1) / per_page

/-- `LIMIT per_page OFFSET (page - 1) * per_page` applied to the ordered
row sequence (source lines 367, 418-420). -/
def pageRows (l : List UserRow) (page per_page : Nat) : List UserRow :=
  (l.drop ((page - 1) * per_page)).take per_page

/-- The ordering constraint of `ORDER BY created_at DESC`: descending
`created_at`, pairwise. -/
def byCreatedDesc (a b : UserRow) : Prop := b.created_at ≤ a.created_at

instance : DecidableRel byCreatedDesc := fun _ _ => Nat.decLe _ _

instance : IsTotal UserRow byCreatedDesc :=
  ⟨fun a b => Nat.le_total b.created_at a.created_at⟩

instance : IsTrans UserRow byCreatedDesc :=
  ⟨fun _ _ _ hab hbc => Nat.le_trans hbc hab⟩

/-- A list is sorted as `ORDER BY created_at DESC` demands. -/
abbrev SortedDesc (l : List UserRow) : Prop := l.Sorted byCreatedDesc

/-- `l` is a possible result sequence of the page query's `SELECT ...
ORDER BY created_at DESC` (before `LIMIT/OFFSET`): a permutation of the
filtered rows that is sorted by `created_at` descending.  The SQL imposes
no further constraint, so ties may come back in any order. -/
abbrev IsQueryOrder (db : List UserRow) (c : Criteria) (today : Nat)
    (l : List UserRow) : Prop :=
  l.Perm (filteredRows db c today) ∧ SortedDesc l

/-! ### `update_user` (source lines 473-557) -/

/-- The JSON body of a `PUT /admin/api/users/<id>` request: each key is
either absent (`none`) or present with a string value. -/
structure UpdateData where
  full_name : Option String
  email : Option String
  phone : Option String
  location : Option String
  status : Option String
  password : Option String
deriving DecidableEq

/-- The outcome of `update_user`. `updated fields` carries the SQL `SET`
fragments executed. -/
inductive UpdateResult where
  | userNotFound
  | emailConflict
  | phoneConflict
  | updated (fields : List String)
  | noFieldsError
deriving DecidableEq

/-- `if key in data: update_fields.append(sql)`. -/
def optField (sql : String) : Option String → List String
  | some _ => [sql]
  | none => []

/-- The `update_fields` list built by `update_user` (source lines 504-533):
one fragment per present key, `password` only when non-empty (Python
truthiness), and `updated_at = CURRENT_TIMESTAMP` always appended last. -/
def buildUpdateFields (d : UpdateData) : List String :=
  optField "full_name = %s" d.full_name ++
  optField "email = %s" d.email ++
  optField "phone = %s" d.phone ++
  optField "location = %s" d.location ++
  optField "status = %s" d.status ++
  (match d.password with
   | some p => if p = "" then [] else ["password = %s"]
   | none => []) ++
  ["updated_at = CURRENT_TIMESTAMP"]

/-- `update_user(user_id)` (source lines 473-557): existence check, email
and phone uniqueness pre-checks against other rows, then the update is
executed iff the field list is non-empty. -/
def update_user (db : List UserRow) (uid : Nat) (d : UpdateData) : UpdateResult :=
  if !db.any (fun r => r.id == uid) then .userNotFound
  else if (match d.email with
           | some e => db.any (fun r => r.email == e && !(r.id == uid))
           | none => false) then .emailConflict
  else if (match d.phone with
           | some p => db.any (fun r => r.phone == p && !(r.id == uid))
           | none => false) then .phoneConflict
  else
    let fields := buildUpdateFields d
    if fields.isEmpty then .noFieldsError else .updated fields

/-! ### Helper lemmas about the split and the `LIKE` matcher -/

/-- If `' | '` does not occur in `l`, the split returns the single segment
`l` itself. -/
theorem splitLoc_of_not_hasSep : ∀ l : List Char, hasSep l = false → splitLoc l = [l] := by
  intro l
  induction l using splitLoc.induct with
  | case1 rest ih => intro h; rw [hasSep.eq_1] at h; exact absurd h (by simp)
  | case2 c rest hne hnil ih =>
    intro h
    rw [hasSep.eq_2 c rest hne] at h
    rw [splitLoc.eq_2 c rest hne, ih h]
  | case3 c rest hne p ps hps ih =>
    intro h
    rw [hasSep.eq_2 c rest hne] at h
    rw [splitLoc.eq_2 c rest hne, ih h]
  | case4 => intro _; rfl

/-- A bare `%` pattern matches every string. -/
theorem likeRun_pct_nil : ∀ t : List Char, likeRun [.anySeq] t = true := by
  intro t
  rw [likeRun]
  induction t with
  | nil => simp [likeRun]
  | cons a as ih => simp_all [List.tails_cons, likeRun]

/-- A literal run followed by `%` matches exactly the strings with that
literal prefix. -/
theorem likeRun_lit_pct : ∀ (lit t : List Char),
    likeRun (lit.map .lit ++ [.anySeq]) t = lit.isPrefixOf t := by
  intro lit
  induction lit with
  | nil => intro t; simpa using likeRun_pct_nil t
  | cons c cs ih =>
    intro t
    cases t with
    | nil => simp [likeRun]
    | cons b bs => simp [likeRun, ih bs, List.isPrefixOf]

/-- Lexing a metacharacter-free prefix produces literal tokens. -/
theorem likeLex_lits_append : ∀ l rest : List Char, (∀ c ∈ l, isLit c = true) →
    likeLex (l ++ rest) = (likeLex rest).map (fun ts => l.map .lit ++ ts) := by
  intro l rest
  induction l with
  | nil => intro _; simp
  | cons c cs ih =>
    intro h
    have hc := h c (by simp)
    have hcs : ∀ x ∈ cs, isLit x = true := fun x hx => h x (by simp [hx])
    simp only [isLit, Bool.not_eq_true', Bool.or_eq_false_iff, beq_eq_false_iff_ne] at hc
    obtain ⟨⟨h1, h2⟩, h3⟩ := hc
    rw [List.cons_append,
        likeLex.eq_3 c (cs ++ rest) (by intro c' r' hcc _; exact h3 hcc),
        if_neg h1, if_neg h2, if_neg h3, ih hcs, Option.map_map]
    rfl

/-- Lexing a leading `%`. -/
theorem likeLex_pct (rest : List Char) :
    likeLex ('%' :: rest) = (likeLex rest).map (fun ts => .anySeq :: ts) := by
  rw [likeLex.eq_3 '%' rest (by intro c' r' hcc _; exact absurd hcc (by decide)), if_pos rfl]

/-- ASCII lowercasing maps no character onto a `LIKE` metacharacter. -/
theorem isLit_toLower (c : Char) (h : isLit c = true) : isLit c.toLower = true := by
  rw [show Char.toLower c =
        (if c.toNat ≥ 65 ∧ c.toNat ≤ 90 then Char.ofNat (c.toNat + 32) else c) from rfl]
  split
  · next hr =>
    obtain ⟨n, hn⟩ : ∃ n, c.toNat = n := ⟨_, rfl⟩
    rw [hn] at hr ⊢
    obtain ⟨hr1, hr2⟩ := hr
    interval_cases n <;> decide
  · exact h

/-- For a search text free of `LIKE` metacharacters, `ILIKE '%text%'` is
exactly case-insensitive substring containment. -/
theorem ilike_searchPattern (s hay : String) (h : ∀ c ∈ s.data, isLit c = true) :
    ilike (searchPattern s) hay = containsLC (lowerL s.data) (lowerL hay.data) := by
  have hlow : ∀ c ∈ lowerL s.data, isLit c = true := by
    intro c hc
    rw [lowerL, List.mem_map] at hc
    obtain ⟨a, ha, rfl⟩ := hc
    exact isLit_toLower a (h a ha)
  have hdata : (searchPattern s).data = '%' :: (s.data ++ ['%']) := by
    rw [searchPattern, String.data_append, String.data_append]; rfl
  rw [ilike, hdata]
  have hmap : lowerL ('%' :: (s.data ++ ['%'])) = '%' :: (lowerL s.data ++ ['%']) := by
    rw [lowerL, List.map_cons, List.map_append]
    rfl
  rw [hmap, likeMatch, likeLex_pct, likeLex_lits_append (lowerL s.data) ['%'] hlow]
  rw [show likeLex ['%'] = some [.anySeq] from rfl]
  show likeRun (.anySeq :: ((lowerL s.data).map .lit ++ [.anySeq])) (lowerL hay.data)
        = containsLC (lowerL s.data) (lowerL hay.data)
  rw [likeRun, containsLC]
  congr 1
  funext t
  exact likeRun_lit_pct (lowerL s.data) t

/-! ### Characterization of `parse_location_data` -/

/-- The coordinate expression succeeds (no `ValueError`) iff the segment is
empty (Python falsy, skipping `float()`) or parses as a float. -/
theorem coordVal_ne_none_iff (p : List Char) :
    coordVal p ≠ none ↔ (p = [] ∨ (parsePyFloat p).isSome = true) := by
  rw [coordVal]
  split
  · next hp => simp [hp]
  · next hp => cases hpf : parsePyFloat p <;> simp [hpf, hp]

/-- Exact condition for `is_auto_detected = true`: at least four segments
and no `ValueError` from either coordinate segment. -/
theorem parse_auto_iff (s : String) :
    (parse_location_data (some s)).is_auto_detected = true ↔
      (4 ≤ (splitLoc s.data).length ∧
       coordVal (partsGet (splitLoc s.data) 1) ≠ none ∧
       coordVal (partsGet (splitLoc s.data) 2) ≠ none) := by
  by_cases hs : s = ""
  · subst hs
    show (emptyLocationRecord).is_auto_detected = true ↔ _
    rw [show (("" : String)).data = [] from rfl]
    simp [emptyLocationRecord, splitLoc]
  · rw [parse_location_data, if_neg hs]
    by_cases hsep : hasSep s.data = true
    · rw [if_pos hsep]
      by_cases h4 : 4 ≤ (splitLoc s.data).length
      · simp only [h4, if_pos, true_and]
        rcases h1 : coordVal (partsGet (splitLoc s.data) 1) with _ | la
        · simp [manualRecord, h1]
        · rcases h2 : coordVal (partsGet (splitLoc s.data) 2) with _ | lo
          · simp [manualRecord, h1, h2]
          · simp [h1, h2]
      · rw [if_neg h4]
        simp [manualRecord, h4]
    · rw [if_neg hsep]
      have hsplit := splitLoc_of_not_hasSep s.data (by simpa using hsep)
      rw [hsplit]
      simp [manualRecord]

/-- On non-empty input, every non-auto outcome is the plain-address
fallback record. -/
theorem parse_not_auto_eq (s : String) (hs : s ≠ "")
    (h : (parse_location_data (some s)).is_auto_detected = false) :
    parse_location_data (some s) = manualRecord s := by
  rw [parse_location_data, if_neg hs] at h ⊢
  by_cases hsep : hasSep s.data = true
  · rw [if_pos hsep] at h ⊢
    by_cases h4 : 4 ≤ (splitLoc s.data).length
    · rw [if_pos h4] at h ⊢
      rcases h1 : coordVal (partsGet (splitLoc s.data) 1) with _ | la
      · simp [h1]
      · rcases h2 : coordVal (partsGet (splitLoc s.data) 2) with _ | lo
        · simp [h1, h2]
        · rw [h1, h2] at h; simp at h
    · rw [if_neg h4] at h ⊢
  · rw [if_neg hsep] at h ⊢

/-- On non-empty input, both return paths include `full_string = raw`. -/
theorem parse_full_string (s : String) (hs : s ≠ "") :
    (parse_location_data (some s)).full_string = some s := by
  rw [parse_location_data, if_neg hs]
  by_cases hsep : hasSep s.data = true
  · rw [if_pos hsep]
    by_cases h4 : 4 ≤ (splitLoc s.data).length
    · rw [if_pos h4]
      rcases h1 : coordVal (partsGet (splitLoc s.data) 1) with _ | la
      · simp [h1, manualRecord]
      · rcases h2 : coordVal (partsGet (splitLoc s.data) 2) with _ | lo
        · simp [h1, h2, manualRecord]
        · simp [h1, h2]
    · rw [if_neg h4]; rfl
  · rw [if_neg hsep]; rfl

/-! ### Pagination arithmetic -/

/-- Concatenating the first `n` pages recovers the first `n * per_page`
rows. -/
theorem chunks_flatten {α : Type} (pp : Nat) : ∀ (n : Nat) (l : List α),
    ((List.range n).map (fun i => (l.drop (i * pp)).take pp)).flatten = l.take (n * pp) := by
  intro n
  induction n with
  | zero => intro l; simp
  | succ n ih =>
    intro l
    rw [List.range_succ, List.map_append, List.flatten_append, ih]
    simp [Nat.succ_mul, List.take_add]

/-- `total_pages * per_page` covers the whole result set. -/
theorem le_totalPages_mul (T pp : Nat) (h : 0 < pp) : T ≤ totalPages T pp * pp := by
  rw [totalPages]
  have h1 := Nat.div_add_mod (T + pp - 1) pp
  have h2 : (T + pp - 1) % pp < pp := Nat.mod_lt _ h
  rw [Nat.mul_comm]
  obtain ⟨m, hm⟩ : ∃ m, pp * ((T + pp - 1) / pp) = m := ⟨_, rfl⟩
  rw [hm] at h1 ⊢
  obtain ⟨r, hr⟩ : ∃ r, (T + pp - 1) % pp = r := ⟨_, rfl⟩
  rw [hr] at h1 h2
  omega

/-- `total_pages` is the least such page count. -/
theorem totalPages_mul_lt (T pp : Nat) (h : 0 < pp) : totalPages T pp * pp < T + pp := by
  rw [totalPages]
  calc (T + pp - 1) / pp * pp ≤ T + pp - 1 := Nat.div_mul_le_self _ _
    _ < T + pp := by omega

/-- The page lengths over pages `0 .. total_pages - 1` sum to the total. -/
theorem pages_len_sum {α : Type} (pp : Nat) (h : 0 < pp) (l : List α) :
    ((List.range (totalPages l.length pp)).map
      (fun i => ((l.drop (i * pp)).take pp).length)).sum = l.length := by
  have hj := congrArg List.length (chunks_flatten pp (totalPages l.length pp) l)
  rw [List.length_flatten, List.map_map, List.length_take,
      Nat.min_eq_right (le_totalPages_mul l.length pp h)] at hj
  exact hj

/-- The integer formula equals the rational ceiling. -/
theorem totalPages_eq_ceil_aux (T pp : Nat) (h : 0 < pp) :
    ((totalPages T pp : Int)) = ⌈(T : ℚ) / (pp : ℚ)⌉ := by
  have hppQ : (0 : ℚ) < pp := by exact_mod_cast h
  symm
  rw [Int.ceil_eq_iff]
  constructor
  · rw [lt_div_iff₀ hppQ]
    have key : totalPages T pp * pp < T + pp := totalPages_mul_lt T pp h
    have keyQ : ((totalPages T pp * pp : ℕ) : ℚ) < ((T + pp : ℕ) : ℚ) := by exact_mod_cast key
    push_cast at keyQ ⊢
    ring_nf
    ring_nf at keyQ
    linarith
  · rw [div_le_iff₀ hppQ]
    have key := le_totalPages_mul T pp h
    exact_mod_cast key

/-! ### Concrete rows and criteria used by witnesses and counterexamples -/

/-- A row with `created_at = 100` and `id = 1`. -/
def tieRowA : UserRow :=
  { id := 1, full_name := "Ann", phone := "5550101", email := "ann@x",
    location := "Somewhere", status := "active", created_at := 100,
    profile_pic := none, updated_at := none }

/-- A row with the same `created_at` as `tieRowA` but `id = 2`. -/
def tieRowB : UserRow :=
  { id := 2, full_name := "Bob", phone := "5550102", email := "bob@x",
    location := "Elsewhere", status := "active", created_at := 100,
    profile_pic := none, updated_at := none }

/-- Criteria with every filter inactive, page 1, 10 per page. -/
def allCriteria : Criteria :=
  { page := 1, per_page := 10, search := "", location_filter := "all",
    status_filter := "all", date_filter := "all" }

/-- Criteria selecting only the `auto` location filter. -/
def autoCriteria : Criteria :=
  { page := 1, per_page := 10, search := "", location_filter := "auto",
    status_filter := "all", date_filter := "all" }

/-- Criteria asking for page 5 of a 2-row result set. -/
def beyondCriteria : Criteria :=
  { page := 5, per_page := 10, search := "", location_filter := "all",
    status_filter := "all", date_filter := "all" }

/-- A row whose location is a fully well-formed encoded string. -/
def shapedRow : UserRow :=
  { id := 3, full_name := "Jane", phone := "5550100", email := "jane@x",
    location := "12 Main St | 40.7128 | -74.0060 | http://maps/x",
    status := "active", created_at := 1000, profile_pic := none, updated_at := none }

/-- A row whose `full_name` is matched by the wildcard `_` in a search. -/
def wildcardRow : UserRow :=
  { id := 1, full_name := "abc", phone := "", email := "", location := "",
    status := "active", created_at := 0, profile_pic := none, updated_at := none }

/-- A row whose email contains `ACME` in upper case. -/
def acmeRow : UserRow :=
  { id := 2, full_name := "", phone := "", email := "Contact ACME Inc", location := "",
    status := "active", created_at := 0, profile_pic := none, updated_at := none }

/-- A PUT body supplying no updatable field at all. -/
def emptyUpdate : UpdateData := ⟨none, none, none, none, none, none⟩

/-! ### Claims -/

/-- Claim C1 (amended): `is_auto_detected = true` iff the raw string splits
on `' | '` into at least four segments AND each coordinate segment is
*either empty or* parses as a float (an empty segment skips the `float()`
call and stays auto-detected with a null coordinate); in every other case
the whole raw string becomes the address with null coordinate fields and
`is_auto_detected = false` (empty input yields the empty-address record). -/
theorem claim_C1_auto_iff (s : String) :
    ((parse_location_data (some s)).is_auto_detected = true ↔
      (4 ≤ (splitLoc s.data).length ∧
       (partsGet (splitLoc s.data) 1 = [] ∨
        (parsePyFloat (partsGet (splitLoc s.data) 1)).isSome = true) ∧
       (partsGet (splitLoc s.data) 2 = [] ∨
        (parsePyFloat (partsGet (splitLoc s.data) 2)).isSome = true))) ∧
    ((parse_location_data (some s)).is_auto_detected = false →
      parse_location_data (some s) =
        (if s = "" then emptyLocationRecord else manualRecord s)) := by
  constructor
  · rw [parse_auto_iff s, coordVal_ne_none_iff, coordVal_ne_none_iff]
  · intro h
    by_cases hs : s = ""
    · subst hs; rw [if_pos rfl]; rfl
    · rw [if_neg hs]; exact parse_not_auto_eq s hs h

/-- Claim C1 counterexample to the claim as stated: for
`"A |  | 1.0 | L"` the second segment is empty, so it does *not* parse as
a float, yet the decoder returns `is_auto_detected = true` (with a null
latitude) instead of the claimed plain-address fallback. -/
theorem claim_C1_counterexample :
    (parse_location_data (some "A |  | 1.0 | L")).is_auto_detected = true ∧
    4 ≤ (splitLoc ("A |  | 1.0 | L").data).length ∧
    partsGet (splitLoc ("A |  | 1.0 | L").data) 1 = [] ∧
    (parsePyFloat (partsGet (splitLoc ("A |  | 1.0 | L").data) 1)).isSome = false ∧
    (parse_location_data (some "A |  | 1.0 | L")).latitude = none := by
  decide

/-- Claim C1 witness: the amended fallback clause evaluated on the plain
address `"Plain, 12"`. -/
theorem claim_C1_witness :
    parse_location_data (some "Plain, 12") = manualRecord "Plain, 12" := by
  have h := (claim_C1_auto_iff "Plain, 12").2 (by decide)
  simpa using h

/-- Claim C2: with only the location filter active, `auto` matches exactly
the rows whose raw location satisfies the SQL shape test
`LIKE '% | % | % | %'`, `manual` exactly its negation — independent of
whether the coordinate segments parse as numbers — and there is a string
that the filter classifies as `auto` while `parse_location_data` decodes it
with `is_auto_detected = false`. -/
theorem claim_C2_location_filter_shape :
    (∀ (c : Criteria) (today : Nat) (r : UserRow),
       c.search = "" → c.status_filter = "all" → c.date_filter = "all" →
       c.location_filter = "auto" →
       (rowMatches c today r = true ↔ autoShape r.location = true)) ∧
    (∀ (c : Criteria) (today : Nat) (r : UserRow),
       c.search = "" → c.status_filter = "all" → c.date_filter = "all" →
       c.location_filter = "manual" →
       (rowMatches c today r = true ↔ autoShape r.location = false)) ∧
    (∃ s : String, autoShape s = true ∧
       (parse_location_data (some s)).is_auto_detected = false) := by
  refine ⟨?_, ?_, ⟨"A | x | y | z", by decide, by decide⟩⟩
  · intro c t r h1 h2 h3 h4
    rw [rowMatches, h1, h2, h3, h4, locCond, if_pos rfl]
    simp [dateCond]
  · intro c t r h1 h2 h3 h4
    rw [rowMatches, h1, h2, h3, h4, locCond, if_neg (by decide), if_pos rfl]
    simp [dateCond]

/-- Claim C2 witness: the auto filter evaluated on a concrete criteria/row
pair. -/
theorem claim_C2_witness :
    rowMatches autoCriteria 0 shapedRow = true ↔ autoShape shapedRow.location = true :=
  claim_C2_location_filter_shape.1 autoCriteria 0 shapedRow rfl rfl rfl rfl

/-- Claim C3 (amended): every possible result sequence of the page query is
a permutation of the filtered rows sorted by `created_at` descending, and
such a sequence always exists; but the query (`ORDER BY created_at DESC`
with no secondary key) does not constrain the relative order of rows with
equal `created_at`, so an identity-ascending tie order and cross-call
determinism are not guaranteed (see the counterexample). -/
theorem claim_C3_order (db : List UserRow) (c : Criteria) (today : Nat) :
    (∃ l, IsQueryOrder db c today l) ∧
    (∀ l, IsQueryOrder db c today l → SortedDesc l ∧ l.Perm (filteredRows db c today)) := by
  constructor
  · exact ⟨List.insertionSort byCreatedDesc (filteredRows db c today),
      List.perm_insertionSort _ _, List.sorted_insertionSort _ _⟩
  · intro l hl; exact ⟨hl.2, hl.1⟩

/-- Claim C3 counterexample to the claim as stated: with two stored rows
sharing `created_at`, both orders satisfy everything `ORDER BY created_at
DESC` demands, and the second one lists the larger id first — so the query
neither breaks ties by identity ascending nor determines a unique result
order. -/
theorem claim_C3_counterexample :
    IsQueryOrder [tieRowA, tieRowB] allCriteria 0 [tieRowA, tieRowB] ∧
    IsQueryOrder [tieRowA, tieRowB] allCriteria 0 [tieRowB, tieRowA] ∧
    ([tieRowA, tieRowB] : List UserRow) ≠ [tieRowB, tieRowA] ∧
    tieRowA.created_at = tieRowB.created_at ∧ tieRowA.id < tieRowB.id := by
  decide

/-- Claim C3 witness: the amended theorem applied to a concrete valid
result sequence. -/
theorem claim_C3_witness :
    SortedDesc [tieRowB, tieRowA] ∧
    ([tieRowB, tieRowA] : List UserRow).Perm (filteredRows [tieRowA, tieRowB] allCriteria 0) :=
  (claim_C3_order [tieRowA, tieRowB] allCriteria 0).2 [tieRowB, tieRowA] (by decide)

/-- Claim C5: the count query and the page query share the same effective
predicate (`rowMatches`), and — for any family of per-request result
orderings — the page sizes over pages `1 .. total_pages` sum to the
reported total: the pages partition the filtered result set. -/
theorem claim_C5_pages_partition (db : List UserRow) (c : Criteria) (today : Nat)
    (L : Nat → List UserRow) (hpp : 0 < c.per_page)
    (hL : ∀ i, IsQueryOrder db c today (L i)) :
    totalCount db c today = (db.filter (rowMatches c today)).length ∧
    ((List.range (totalPages (totalCount db c today) c.per_page)).map
       (fun i => (pageRows (L i) (i + 1) c.per_page).length)).sum
      = totalCount db c today := by
  refine ⟨rfl, ?_⟩
  have hlen : ∀ i, (L i).length = totalCount db c today := fun i => (hL i).1.length_eq
  have hmap : (fun i => (pageRows (L i) (i + 1) c.per_page).length)
      = (fun i => (((filteredRows db c today).drop (i * c.per_page)).take c.per_page).length) := by
    funext i
    rw [pageRows, Nat.add_sub_cancel, List.length_take, List.length_drop, hlen i,
        List.length_take, List.length_drop]
    rfl
  rw [hmap]
  exact pages_len_sum c.per_page hpp (filteredRows db c today)

/-- Claim C5 witness: a two-row database under the no-op criteria. -/
theorem claim_C5_witness :
    totalCount [tieRowA, tieRowB] allCriteria 0
        = (([tieRowA, tieRowB] : List UserRow).filter (rowMatches allCriteria 0)).length ∧
    ((List.range (totalPages (totalCount [tieRowA, tieRowB] allCriteria 0) allCriteria.per_page)).map
       (fun i => (pageRows [tieRowA, tieRowB] (i + 1) allCriteria.per_page).length)).sum
      = totalCount [tieRowA, tieRowB] allCriteria 0 :=
  claim_C5_pages_partition [tieRowA, tieRowB] allCriteria 0 (fun _ => [tieRowA, tieRowB])
    (by decide)
    (fun _ => (by decide : IsQueryOrder [tieRowA, tieRowB] allCriteria 0 [tieRowA, tieRowB]))

/-- Claim C6: the integer formula `(total + per_page - 1) // per_page` used
for `total_pages` coincides with the mathematical ceiling of the rational
`total / per_page` for every non-negative total and positive `per_page`. -/
theorem claim_C6_total_pages_ceil (total pp : Nat) (h : 0 < pp) :
    (totalPages total pp : Int) = ⌈(total : ℚ) / (pp : ℚ)⌉ ∧
    totalPages total pp = (total + pp - 1) / pp :=
  ⟨totalPages_eq_ceil_aux total pp h, rfl⟩

/-- Claim C6 witness: `ceil(7 / 3) = 3` via the integer formula. -/
theorem claim_C6_witness :
    (totalPages 7 3 : Int) = ⌈((7 : Nat) : ℚ) / ((3 : Nat) : ℚ)⌉ ∧
    totalPages 7 3 = (7 + 3 - 1) / 3 :=
  claim_C6_total_pages_ceil 7 3 (by decide)

/-- Claim C7: requesting a page strictly beyond `total_pages` yields an
empty row sequence, while the reported total still equals the unpaginated
match count for the same criteria. -/
theorem claim_C7_beyond_pages (db : List UserRow) (c : Criteria) (today : Nat)
    (l : List UserRow) (hl : IsQueryOrder db c today l) (hpp : 0 < c.per_page)
    (hpage : totalPages (totalCount db c today) c.per_page < c.page) :
    pageRows l c.page c.per_page = [] ∧
    totalCount db c today = (db.filter (rowMatches c today)).length := by
  refine ⟨?_, rfl⟩
  rw [pageRows]
  have hlen : l.length = totalCount db c today := hl.1.length_eq
  have h1 : l.length ≤ (c.page - 1) * c.per_page := by
    have h2 : totalCount db c today ≤ totalPages (totalCount db c today) c.per_page * c.per_page :=
      le_totalPages_mul _ _ hpp
    have h3 : totalPages (totalCount db c today) c.per_page * c.per_page
        ≤ (c.page - 1) * c.per_page :=
      Nat.mul_le_mul_right _ (by omega)
    omega
  rw [List.drop_eq_nil_of_le h1, List.take_nil]

/-- Claim C7 witness: page 5 of a 2-row result set (total_pages = 1). -/
theorem claim_C7_witness :
    pageRows [tieRowA, tieRowB] beyondCriteria.page beyondCriteria.per_page = [] ∧
    totalCount [tieRowA, tieRowB] beyondCriteria 0
      = (([tieRowA, tieRowB] : List UserRow).filter (rowMatches beyondCriteria 0)).length :=
  claim_C7_beyond_pages [tieRowA, tieRowB] beyondCriteria 0 [tieRowA, tieRowB]
    (by decide) (by decide) (by decide)

/-- Claim C4 (amended): for a non-empty search string containing no `LIKE`
metacharacter (`%`, `_`, or the escape `\`), a record matches the search
predicate iff at least one of `full_name`, `phone`, `email`, `location`
contains the search text as a case-insensitive unanchored substring.  (For
strings *with* such characters the predicate is wildcard matching, not
containment — see the counterexample.) -/
theorem claim_C4_search_ci_substring (s : String) (r : UserRow)
    (hne : s ≠ "") (hlit : ∀ c ∈ s.data, isLit c = true) :
    searchCond s r = true ↔
      (containsLC (lowerL s.data) (lowerL r.full_name.data) = true ∨
       containsLC (lowerL s.data) (lowerL r.phone.data) = true ∨
       containsLC (lowerL s.data) (lowerL r.email.data) = true ∨
       containsLC (lowerL s.data) (lowerL r.location.data) = true) := by
  have _hne := hne
  rw [searchCond, ilike_searchPattern _ _ hlit, ilike_searchPattern _ _ hlit,
      ilike_searchPattern _ _ hlit, ilike_searchPattern _ _ hlit]
  simp [Bool.or_eq_true, or_assoc]

/-- Claim C4 counterexample to the claim as stated: the search string
`"a_c"` matches the record named `"abc"` (because `_` is an `ILIKE`
wildcard) although no field contains `"a_c"` as a substring, so
"matches iff contains, for every value of s" is false. -/
theorem claim_C4_counterexample :
    searchCond "a_c" wildcardRow = true ∧
    containsLC (lowerL "a_c".data) (lowerL wildcardRow.full_name.data) = false ∧
    containsLC (lowerL "a_c".data) (lowerL wildcardRow.phone.data) = false ∧
    containsLC (lowerL "a_c".data) (lowerL wildcardRow.email.data) = false ∧
    containsLC (lowerL "a_c".data) (lowerL wildcardRow.location.data) = false := by
  decide

/-- Claim C4 witness: `"acme"` matches a record whose email contains
`"ACME"`. -/
theorem claim_C4_witness : searchCond "acme" acmeRow = true :=
  (claim_C4_search_ci_substring "acme" acmeRow (by decide) (by decide)).mpr
    (Or.inr (Or.inr (Or.inl (by decide))))

/-- Claim C8: `parse_location_data` is total (it is a Lean function, built
without any partiality: the only fallible operation, `float()`, is modelled
by the `Option`-valued `parsePyFloat` exactly as the source's
`try/except`), and every input it does not classify as auto-detected
degrades to the plain-address record: address is the whole raw string
(empty for empty/absent input) and latitude, longitude, map_link are all
null. -/
theorem claim_C8_total_fallback (ls : Option String)
    (h : (parse_location_data ls).is_auto_detected = false) :
    (parse_location_data ls).address = ls.getD "" ∧
    (parse_location_data ls).latitude = none ∧
    (parse_location_data ls).longitude = none ∧
    (parse_location_data ls).map_link = none := by
  cases ls with
  | none => exact ⟨rfl, rfl, rfl, rfl⟩
  | some s =>
    by_cases hs : s = ""
    · subst hs; exact ⟨rfl, rfl, rfl, rfl⟩
    · rw [parse_not_auto_eq s hs h]; exact ⟨rfl, rfl, rfl, rfl⟩

/-- Claim C8 witness: a four-segment string with a non-numeric coordinate
falls back to the plain-address record. -/
theorem claim_C8_witness :
    (parse_location_data (some "12 Main St | abc | -74.0060 | http")).address
        = (some "12 Main St | abc | -74.0060 | http").getD "" ∧
    (parse_location_data (some "12 Main St | abc | -74.0060 | http")).latitude = none ∧
    (parse_location_data (some "12 Main St | abc | -74.0060 | http")).longitude = none ∧
    (parse_location_data (some "12 Main St | abc | -74.0060 | http")).map_link = none :=
  claim_C8_total_fallback (some "12 Main St | abc | -74.0060 | http") (by decide)

/-- Claim C9: the `'No fields to update'` branch of `update_user` is
unreachable — `updated_at = CURRENT_TIMESTAMP` is unconditionally appended,
so the field list is never empty, and a request on an existing user that
passes both uniqueness pre-checks always executes an UPDATE whose SET list
touches `updated_at`. -/
theorem claim_C9_update_always (db : List UserRow) (uid : Nat) (d : UpdateData) :
    update_user db uid d ≠ .noFieldsError ∧
    "updated_at = CURRENT_TIMESTAMP" ∈ buildUpdateFields d ∧
    (db.any (fun r => r.id == uid) = true →
     update_user db uid d ≠ .emailConflict →
     update_user db uid d ≠ .phoneConflict →
     ∃ fs, update_user db uid d = .updated fs ∧ "updated_at = CURRENT_TIMESTAMP" ∈ fs) := by
  have hmem : "updated_at = CURRENT_TIMESTAMP" ∈ buildUpdateFields d := by
    rw [buildUpdateFields]; simp
  have hne : (buildUpdateFields d).isEmpty = false := by
    cases hval : buildUpdateFields d with
    | nil => rw [hval] at hmem; simp at hmem
    | cons a as => rfl
  refine ⟨?_, hmem, ?_⟩
  · rw [update_user]
    split
    · simp
    · split
      · simp
      · split
        · simp
        · show (if (buildUpdateFields d).isEmpty = true then UpdateResult.noFieldsError
                else .updated (buildUpdateFields d)) ≠ .noFieldsError
          rw [hne]
          simp
  · intro hex hem hph
    rw [update_user, if_neg (by simp [hex])] at hem hph ⊢
    by_cases he : (match d.email with
                   | some e => db.any (fun r => r.email == e && !(r.id == uid))
                   | none => false) = true
    · rw [if_pos he] at hem; exact absurd rfl hem
    · rw [if_neg he] at hph ⊢
      by_cases hp : (match d.phone with
                     | some p => db.any (fun r => r.phone == p && !(r.id == uid))
                     | none => false) = true
      · rw [if_pos hp] at hph; exact absurd rfl hph
      · rw [if_neg hp]
        refine ⟨buildUpdateFields d, ?_, hmem⟩
        show (if (buildUpdateFields d).isEmpty = true then UpdateResult.noFieldsError
              else .updated (buildUpdateFields d)) = .updated (buildUpdateFields d)
        rw [hne]
        simp

/-- Claim C9 witness: a request with no updatable field on an existing user
still results in an UPDATE touching only `updated_at`. -/
theorem claim_C9_witness :
    ∃ fs, update_user [tieRowA] 1 emptyUpdate = .updated fs ∧
      "updated_at = CURRENT_TIMESTAMP" ∈ fs :=
  (claim_C9_update_always [tieRowA] 1 emptyUpdate).2.2 (by decide) (by decide) (by decide)

/-- Claim C10: the record for empty or absent input has no `full_string`
key (modelled as `none`), while for every non-empty input the record
carries `full_string` equal to the input — the public record shape is not
uniform across inputs. -/
theorem claim_C10_full_string (s : String) :
    (parse_location_data none).full_string = none ∧
    (parse_location_data (some "")).full_string = none ∧
    (s ≠ "" → (parse_location_data (some s)).full_string = some s) :=
  ⟨rfl, rfl, fun hs => parse_full_string s hs⟩

/-- Claim C10 witness: a non-empty (even non-shaped) input carries its
`full_string`. -/
theorem claim_C10_witness :
    (parse_location_data (some "x | y")).full_string = some "x | y" :=
  (claim_C10_full_string "x | y").2.2 (by decide)

end AdminUsers
